import Mathlib

/-!
Verification of the document listing / filtering / pagination state hook of
the SEC Edgar Document Explorer frontend, together with the AI search panel's
submit handler and the debounced search input.

The definitions below are a shallow embedding of the JavaScript sources:
  * `frontend/src/hooks/useDocuments.js`  — the query state hook,
  * `frontend/src/components/SearchPanel.jsx` — the AI search submit handler,
  * the debounced `SearchBar` described by the design document.
JavaScript numbers that only ever hold integer values are modelled as `Int`;
optional / possibly-`undefined` string fields are modelled as `Option String`;
JSON bodies become Lean structures.
-/

/-- A document record as delivered by the backend's list endpoint.  The hook
stores these verbatim and never inspects the fields, so the exact field list
only mirrors the data model. -/
structure Document where
  id : Nat
  company_name : String
  cik : String
  filing_type : String
  filing_date : String
  description : String
  document_url : String
  chunk_count : Nat
deriving DecidableEq, Repr

/-- The filter state owned by `useDocuments`: the five optional string
filters plus the pagination pair.  `none` models a key that is absent or
`undefined` in the JavaScript object (both are invisible to
`JSON.stringify` and to the query string). -/
structure FilterState where
  search : Option String
  filing_type : Option String
  company_name : Option String
  start_date : Option String
  end_date : Option String
  skip : Int
  limit : Int
deriving DecidableEq, Repr

/-- The initial filter state of `useDocuments()` as mounted by
`DocumentList` (no `initialFilters` argument): `{ skip: 0, limit: 20 }`. -/
def initialFilters : FilterState :=
  { search := none
    filing_type := none
    company_name := none
    start_date := none
    end_date := none
    skip := 0
    limit := 20 }

/-- A partial payload passed to `updateFilters`.  The outer `Option` of each
field records whether the key is present in the payload object; for the
string filters the inner `Option` is the value (`none` = `undefined`). -/
structure FilterPatch where
  search : Option (Option String)
  filing_type : Option (Option String)
  company_name : Option (Option String)
  start_date : Option (Option String)
  end_date : Option (Option String)
  skip : Option Int
  limit : Option Int
deriving DecidableEq, Repr

/-- The payload with no keys. -/
def emptyPatch : FilterPatch :=
  { search := none
    filing_type := none
    company_name := none
    start_date := none
    end_date := none
    skip := none
    limit := none }

/-- `updateFilters(newFilters)`:
`setFilters(prev => ({ ...prev, ...newFilters, skip: 0 }))`.
Keys present in the payload override the previous state and `skip` is forced
to `0` last, so a `skip` key in the payload is itself overridden. -/
def updateFilters (prev : FilterState) (p : FilterPatch) : FilterState :=
  { search := p.search.getD prev.search
    filing_type := p.filing_type.getD prev.filing_type
    company_name := p.company_name.getD prev.company_name
    start_date := p.start_date.getD prev.start_date
    end_date := p.end_date.getD prev.end_date
    skip := 0
    limit := p.limit.getD prev.limit }

/-- `clearFilters()`: `setFilters({ skip: 0, limit: 20 })` — all filter keys
gone, exactly the mount default. -/
def clearFilters (_prev : FilterState) : FilterState :=
  initialFilters

/-- `nextPage()`: `skip = prev.skip + prev.limit`, unconditionally. -/
def nextPage (prev : FilterState) : FilterState :=
  { prev with skip := prev.skip + prev.limit }

/-- `prevPage()`: `skip = Math.max(0, prev.skip - prev.limit)`. -/
def prevPage (prev : FilterState) : FilterState :=
  { prev with skip := max 0 (prev.skip - prev.limit) }

/-- `goToPage(page)`: `skip = page * prev.limit`, no bounds check. -/
def goToPage (page : Int) (prev : FilterState) : FilterState :=
  { prev with skip := page * prev.limit }

/-- `refetch()`: `setFilters(prev => ({ ...prev }))` — a fresh object with
identical key/value content, so the filter state's value is unchanged. -/
def refetchFilters (prev : FilterState) : FilterState :=
  prev

/-- One user-level operation on the hook's filter state. -/
inductive HookOp where
  | updateFilters (p : FilterPatch)
  | clearFilters
  | refetch
  | nextPage
  | prevPage
  | goToPage (page : Int)
deriving DecidableEq, Repr

/-- The effect of one operation on the filter state. -/
def applyOp : HookOp → FilterState → FilterState
  | .updateFilters p, f => updateFilters f p
  | .clearFilters, f => clearFilters f
  | .refetch, f => refetchFilters f
  | .nextPage, f => nextPage f
  | .prevPage, f => prevPage f
  | .goToPage n, f => goToPage n f

/-- The filter state after a sequence of operations starting from `f`. -/
def applyOps (ops : List HookOp) (f : FilterState) : FilterState :=
  ops.foldl (fun f op => applyOp op f) f

/-- `JSON.stringify(filters)` as used by the fetch guard: a textual
serialization in which keys holding `undefined` are dropped.  The guard only
ever compares the serializations of value-equal or value-different states, so
the exact text matters less than the fact that it is a function of the
state's visible keys. -/
def serializeFilters (f : FilterState) : String :=
  let strField : String → Option String → List String := fun k v =>
    match v with
    | none => []
    | some s => [String.append (String.append (String.append k "\x22") s) "\x22"]
  String.intercalate ","
    (String.append "skip:" (toString f.skip) ::
     String.append "limit:" (toString f.limit) ::
     (strField "search:" f.search ++
      strField "filing_type:" f.filing_type ++
      strField "company_name:" f.company_name ++
      strField "start_date:" f.start_date ++
      strField "end_date:" f.end_date))

/-- `currentPage = Math.floor(filters.skip / filters.limit)`: floor of the
real quotient, which for integer operands is `Int.fdiv`. -/
def currentPage (f : FilterState) : Int :=
  Int.fdiv f.skip f.limit

/-- `totalPages = Math.ceil(total / filters.limit)`: ceiling of the real
quotient, rendered through `ceil x = -floor (-x)`. -/
def totalPages (total : Int) (f : FilterState) : Int :=
  -(Int.fdiv (-total) f.limit)

/-- The outcome of one list request as the hook's effect sees it:
`response.data` on success, or the optional structured
`err.response?.data?.detail` on failure (`none` covers both a missing field
and a pure transport failure). -/
inductive FetchResult where
  | success (items : List Document) (total : Int)
  | failure (detail : Option String)
deriving DecidableEq, Repr

/-- `err.response?.data?.detail || 'Failed to fetch documents'`: the detail
string when present and truthy (a non-empty string), the fallback
otherwise. -/
def fetchErrorMessage (detail : Option String) : String :=
  match detail with
  | some d => if d = "" then "Failed to fetch documents" else d
  | none => "Failed to fetch documents"

/-- The full state of one `useDocuments` instance: the `useState` cells plus
the `prevFiltersRef` ref cell holding the serialization of the last issued
request (`none` before any request, as for a fresh `useRef()`). -/
structure HookState where
  documents : List Document
  total : Int
  loading : Bool
  error : Option String
  filters : FilterState
  prevFiltersRef : Option String
deriving DecidableEq, Repr

/-- The hook's state at mount: `[]`, `0`, `false`, `null`, the default
filters, and an empty ref. -/
def initialHookState : HookState :=
  { documents := []
    total := 0
    loading := false
    error := none
    filters := initialFilters
    prevFiltersRef := none }

/-- One run of the `useEffect` body to completion, given the result the
request would produce.  First the guard: if `prevFiltersRef.current` equals
`JSON.stringify(filters)` the body returns without a request.  Otherwise the
ref is updated, `error` is cleared, the request runs, and its resolution
either replaces `documents`/`total` wholesale or records an error message;
`loading` ends `false` either way.  The returned flag says whether a request
was issued. -/
def runEffect (s : HookState) (r : FetchResult) : HookState × Bool :=
  if s.prevFiltersRef = some (serializeFilters s.filters) then
    (s, false)
  else
    let s1 := { s with prevFiltersRef := some (serializeFilters s.filters) }
    match r with
    | .success items t =>
        ({ s1 with documents := items, total := t, error := none,
                   loading := false }, true)
    | .failure d =>
        ({ s1 with error := some (fetchErrorMessage d),
                   loading := false }, true)

/-- One user-level operation followed by the effect run it triggers: every
operation calls `setFilters` with a fresh object, so the `[filters]`
dependency changes by reference and the effect body runs each time. -/
def stepHook (s : HookState) (op : HookOp) (r : FetchResult) : HookState × Bool :=
  runEffect { s with filters := applyOp op s.filters } r

/-- Metadata of one retrieved chunk in the AI search response. -/
structure ChunkMetadata where
  company_name : String
  filing_type : String
  filing_date : String
  document_url : Option String
  chunk_index : Int
  total_chunks : Int
  chunk_char_count : Int
deriving DecidableEq, Repr

/-- One retrieved chunk: content, relevance score (a JavaScript float,
embedded as a rational), metadata. -/
structure Chunk where
  content : String
  score : ℚ
  metadata : ChunkMetadata
deriving DecidableEq, Repr

/-- The AI search response body. -/
structure SearchResult where
  answer : String
  chunks : List Chunk
  total_chunks : Int
deriving DecidableEq, Repr

/-- The state of the `SearchPanel` component relevant to `handleSearch`. -/
structure SearchPanelState where
  query : String
  companyFilter : String
  filingTypeFilter : String
  limit : Int
  loading : Bool
  result : Option SearchResult
  error : Option String
deriving DecidableEq, Repr

/-- The body of the `POST /search` request issued by `handleSearch`. -/
structure SearchRequest where
  query : String
  company_filter : Option String
  filing_type_filter : Option String
  limit : Int
deriving DecidableEq, Repr

/-- JavaScript `String.prototype.trim()`: drop leading and trailing
whitespace. -/
def jsTrim (s : String) : String :=
  String.mk (((s.data.dropWhile Char.isWhitespace).reverse.dropWhile
    Char.isWhitespace).reverse)

/-- `handleSearch` up to the point the request leaves: if `query.trim()` is
empty the handler sets the error message and returns without a request,
leaving `result` untouched; otherwise it clears `error` and `result`, sets
`loading`, and posts the trimmed query with each empty optional filter
replaced by `null` (`companyFilter || null`). -/
def handleSearch (s : SearchPanelState) : SearchPanelState × Option SearchRequest :=
  if jsTrim s.query = "" then
    ({ s with error := some "Please enter a search query" }, none)
  else
    ({ s with loading := true, error := none, result := none },
     some
       { query := jsTrim s.query
         company_filter := if s.companyFilter = "" then none else some s.companyFilter
         filing_type_filter :=
           if s.filingTypeFilter = "" then none else some s.filingTypeFilter
         limit := s.limit })

/-- One keystroke in the search box: the instant it happens (milliseconds)
and the full input text after it. -/
structure Keystroke where
  time : Nat
  text : String
deriving DecidableEq, Repr

/-- Modelled from the spec: `SearchBar.jsx` is not among the provided
sources; the design document describes its debounce as a cancellable delayed
task — each keystroke cancels any pending timer and schedules a new one
`delay` milliseconds out, and only a timer that survives uncancelled issues
a request carrying the text at scheduling time.  For a chronologically
ordered keystroke list, the keystrokes whose timers fire are exactly those
not followed within `delay` by another keystroke. -/
def debounceRequests (delay : Nat) : List Keystroke → List String
  | [] => []
  | [k] => [k.text]
  | k :: k2 :: rest =>
    if k2.time < k.time + delay then debounceRequests delay (k2 :: rest)
    else k.text :: debounceRequests delay (k2 :: rest)

/-! ### Helper lemmas -/

/-- Floor division of integers agrees with the rational floor for a positive
divisor. -/
theorem fdiv_eq_ratFloor (a b : Int) (hb : 0 < b) :
    Int.fdiv a b = ⌊(a : ℚ) / (b : ℚ)⌋ := by
  rw [Int.fdiv_eq_ediv a hb.le]
  obtain ⟨d, rfl⟩ : ∃ d : ℕ, b = (d : ℤ) := ⟨b.toNat, (Int.toNat_of_nonneg hb.le).symm⟩
  exact_mod_cast (Rat.floor_intCast_div_natCast a d).symm

/-- Negated floor division of the negation computes the rational ceiling for
a positive divisor. -/
theorem neg_fdiv_neg_eq_ratCeil (a b : Int) (hb : 0 < b) :
    -(Int.fdiv (-a) b) = ⌈(a : ℚ) / (b : ℚ)⌉ := by
  rw [fdiv_eq_ratFloor (-a) b hb]
  push_cast
  rw [neg_div, Int.floor_neg, neg_neg]

/-- The error message produced by a failed fetch is never empty. -/
theorem fetchErrorMessage_ne_empty (d : Option String) : fetchErrorMessage d ≠ "" := by
  match d with
  | none => simp [fetchErrorMessage]
  | some m =>
    by_cases h : m = "" <;> simp [fetchErrorMessage, h]

/-! ### C2 -/

/-- A payload carrying only the key `skip` with value `40`. -/
def skipPatch40 : FilterPatch :=
  { emptyPatch with skip := some 40 }

/-- C2 counterexample: the claim promises that every key present in the
payload carries the payload's value, but a payload `{ skip: 40 }` is
overridden by the forced `skip: 0`, so the resulting `skip` is `0`, not
`40`. -/
theorem updateFilters_skip_key_cex :
    skipPatch40.skip = some 40 ∧
    (updateFilters initialFilters skipPatch40).skip = 0 ∧
    (updateFilters initialFilters skipPatch40).skip ≠ 40 := by
  refine ⟨rfl, rfl, by decide⟩

/-- C2 (amended): for every prior filter state and payload,
`updateFilters` yields `skip = 0`; every key present in the payload other
than `skip` carries the payload's value, and every key absent from the
payload keeps its prior value. -/
theorem updateFilters_merge (f : FilterState) (p : FilterPatch) :
    (updateFilters f p).skip = 0 ∧
    (∀ v, p.search = some v → (updateFilters f p).search = v) ∧
    (p.search = none → (updateFilters f p).search = f.search) ∧
    (∀ v, p.filing_type = some v → (updateFilters f p).filing_type = v) ∧
    (p.filing_type = none → (updateFilters f p).filing_type = f.filing_type) ∧
    (∀ v, p.company_name = some v → (updateFilters f p).company_name = v) ∧
    (p.company_name = none → (updateFilters f p).company_name = f.company_name) ∧
    (∀ v, p.start_date = some v → (updateFilters f p).start_date = v) ∧
    (p.start_date = none → (updateFilters f p).start_date = f.start_date) ∧
    (∀ v, p.end_date = some v → (updateFilters f p).end_date = v) ∧
    (p.end_date = none → (updateFilters f p).end_date = f.end_date) ∧
    (∀ v, p.limit = some v → (updateFilters f p).limit = v) ∧
    (p.limit = none → (updateFilters f p).limit = f.limit) := by
  refine ⟨rfl, ?_, ?_, ?_, ?_, ?_, ?_, ?_, ?_, ?_, ?_, ?_, ?_⟩ <;>
    first
      | (intro v h; simp [updateFilters, h])
      | (intro h; simp [updateFilters, h])

/-- A payload carrying only a `search` key. -/
def teslaPatch : FilterPatch :=
  { emptyPatch with search := some (some "tesla") }

/-- C2 witness: on the default state and the payload `{ search: "tesla" }`
the amended claim evaluates as promised. -/
theorem updateFilters_merge_witness :
    (updateFilters initialFilters teslaPatch).skip = 0 ∧
    (updateFilters initialFilters teslaPatch).search = some "tesla" ∧
    (updateFilters initialFilters teslaPatch).limit = 20 := by
  obtain ⟨h0, hs, -, -, -, -, -, -, -, -, -, -, hl⟩ :=
    updateFilters_merge initialFilters teslaPatch
  exact ⟨h0, hs (some "tesla") rfl, hl rfl⟩

/-! ### C3 -/

/-- A payload is benign when any `limit` key it carries is positive; no
caller in the repository ever sends a `limit` key at all. -/
def patchLimitPositive (p : FilterPatch) : Prop :=
  ∀ l, p.limit = some l → 0 < l

/-- The side condition of the pagination invariant for one operation:
`updateFilters` payloads keep `limit` positive and `goToPage` receives a
non-negative page (the `Pagination` component only emits such pages). -/
def opWellFormed : HookOp → Prop
  | .updateFilters p => patchLimitPositive p
  | .goToPage n => 0 ≤ n
  | _ => True

/-- The pagination invariant: a positive page size and a skip that is a
non-negative multiple of it. -/
def PaginationInv (f : FilterState) : Prop :=
  0 < f.limit ∧ ∃ k : Int, 0 ≤ k ∧ f.skip = k * f.limit

/-- One well-formed operation preserves the pagination invariant. -/
theorem paginationInv_step (f : FilterState) (op : HookOp)
    (hf : PaginationInv f) (hop : opWellFormed op) :
    PaginationInv (applyOp op f) := by
  obtain ⟨hl, k, hk, hskip⟩ := hf
  cases op with
  | updateFilters p =>
    refine ⟨?_, 0, le_refl 0, by simp [applyOp, updateFilters]⟩
    cases hp : p.limit with
    | none => simpa [applyOp, updateFilters, hp] using hl
    | some l => simpa [applyOp, updateFilters, hp] using hop l hp
  | clearFilters =>
    refine ⟨?_, 0, le_refl 0, ?_⟩ <;>
      norm_num [applyOp, clearFilters, initialFilters]
  | refetch => exact ⟨hl, k, hk, hskip⟩
  | nextPage =>
    refine ⟨hl, k + 1, by omega, ?_⟩
    simp only [applyOp, nextPage, hskip]
    ring
  | prevPage =>
    refine ⟨hl, ?_⟩
    by_cases hk1 : 1 ≤ k
    · refine ⟨k - 1, by omega, ?_⟩
      have hnn : 0 ≤ f.skip - f.limit := by
        rw [hskip]
        have : 1 * f.limit ≤ k * f.limit :=
          mul_le_mul_of_nonneg_right hk1 hl.le
        omega
      simp only [applyOp, prevPage, hskip]
      rw [max_eq_right (by rw [hskip] at hnn; omega)]
      ring
    · have hk0 : k = 0 := by omega
      refine ⟨0, le_refl 0, ?_⟩
      have hneg : f.skip - f.limit < 0 := by
        rw [hskip, hk0]; simpa using hl
      simp only [applyOp, prevPage]
      rw [max_eq_left (by omega)]
      ring
  | goToPage n =>
    exact ⟨hl, n, hop, rfl⟩

/-- The pagination invariant is preserved along any well-formed operation
sequence. -/
theorem paginationInv_applyOps (ops : List HookOp) (f : FilterState)
    (hf : PaginationInv f) (hops : ∀ op ∈ ops, opWellFormed op) :
    PaginationInv (applyOps ops f) := by
  induction ops generalizing f with
  | nil => exact hf
  | cons op rest ih =>
    have h1 : PaginationInv (applyOp op f) :=
      paginationInv_step f op hf (hops op (List.mem_cons_self op rest))
    have h2 : ∀ o ∈ rest, opWellFormed o :=
      fun o ho => hops o (List.mem_cons_of_mem op ho)
    simpa [applyOps] using ih (applyOp op f) h1 h2

/-- A payload carrying only a negative `limit` key. -/
def negLimitPatch : FilterPatch :=
  { emptyPatch with limit := some (-20) }

/-- C3 counterexample: the claim as stated quantifies over every payload;
the sequence `updateFilters({limit: -20})` then `nextPage()` drives `skip`
to `-20`, which is not non-negative. -/
theorem pagination_invariant_cex :
    (applyOps [HookOp.updateFilters negLimitPatch, HookOp.nextPage] initialFilters).skip
      = -20 ∧
    ¬(0 ≤ (applyOps [HookOp.updateFilters negLimitPatch, HookOp.nextPage]
        initialFilters).skip) := by
  refine ⟨rfl, by decide⟩

/-- C3 (amended): starting from the initial state `{skip: 0, limit: 20}`,
after every sequence of operations in which `updateFilters` payloads only
ever set a positive `limit` (as every caller in the repository does — none
sets `limit` at all) and `goToPage` receives a non-negative page, `skip` is
a non-negative multiple of `limit`; moreover every operation that changes a
filter other than pagination (`updateFilters`, `clearFilters`) resets
`skip` to `0`. -/
theorem pagination_invariant (ops : List HookOp)
    (hops : ∀ op ∈ ops, opWellFormed op) :
    (0 < (applyOps ops initialFilters).limit ∧
     ∃ k : Int, 0 ≤ k ∧
       (applyOps ops initialFilters).skip = k * (applyOps ops initialFilters).limit) ∧
    (∀ f p, (updateFilters f p).skip = 0 ∧ (clearFilters f).skip = 0) := by
  refine ⟨?_, fun f p => ⟨rfl, rfl⟩⟩
  exact paginationInv_applyOps ops initialFilters
    ⟨by decide, 0, le_refl 0, by decide⟩ hops

/-- C3 witness: a concrete well-formed run — filter to a company, advance
two pages, come back one — lands on `skip = 20`, a non-negative multiple of
`limit = 20`. -/
theorem pagination_invariant_witness :
    (∀ op ∈ [HookOp.updateFilters teslaPatch, HookOp.nextPage, HookOp.nextPage,
        HookOp.prevPage], opWellFormed op) ∧
    (0 < (applyOps [HookOp.updateFilters teslaPatch, HookOp.nextPage, HookOp.nextPage,
        HookOp.prevPage] initialFilters).limit ∧
     ∃ k : Int, 0 ≤ k ∧
       (applyOps [HookOp.updateFilters teslaPatch, HookOp.nextPage, HookOp.nextPage,
          HookOp.prevPage] initialFilters).skip =
        k * (applyOps [HookOp.updateFilters teslaPatch, HookOp.nextPage, HookOp.nextPage,
          HookOp.prevPage] initialFilters).limit) ∧
    (∀ f p, (updateFilters f p).skip = 0 ∧ (clearFilters f).skip = 0) := by
  have hops : ∀ op ∈ [HookOp.updateFilters teslaPatch, HookOp.nextPage, HookOp.nextPage,
      HookOp.prevPage], opWellFormed op := by
    intro op hop
    fin_cases hop <;> simp [opWellFormed, patchLimitPositive, teslaPatch, emptyPatch]
  exact ⟨hops, pagination_invariant _ hops⟩

/-! ### C6 -/

/-- C6: for every filter state with `skip ≥ 0`, `nextPage()` followed by
`prevPage()` restores the original `skip` (with the same `limit`
throughout). -/
theorem nextPage_prevPage_roundtrip (f : FilterState) (h : 0 ≤ f.skip) :
    (prevPage (nextPage f)).skip = f.skip := by
  simp only [prevPage, nextPage]
  omega

/-- C6 witness: the round trip evaluated at `skip = 40, limit = 20`. -/
theorem nextPage_prevPage_roundtrip_witness :
    0 ≤ ({ initialFilters with skip := 40 } : FilterState).skip ∧
    (prevPage (nextPage { initialFilters with skip := 40 })).skip =
      ({ initialFilters with skip := 40 } : FilterState).skip :=
  ⟨by decide, nextPage_prevPage_roundtrip { initialFilters with skip := 40 } (by decide)⟩

/-! ### C7 -/

/-- The spec's formula for the current page: `floor(skip / limit)` over the
real (here rational) quotient. -/
def currentPageSpec (skip limit : Int) : Int :=
  ⌊(skip : ℚ) / (limit : ℚ)⌋

/-- The spec's formula for the page count: `ceil(total / limit)` over the
real (here rational) quotient. -/
def totalPagesSpec (total limit : Int) : Int :=
  ⌈(total : ℚ) / (limit : ℚ)⌉

/-- C7: for all non-negative `skip` and `total` and positive `limit`, the
hook's derived values agree with the spec's formulas
`currentPage = floor(skip/limit)` and `totalPages = ceil(total/limit)`;
both are pure functions of the current `skip`, `limit` and `total`. -/
theorem derived_pagination_formulas (f : FilterState) (total : Int)
    (_hs : 0 ≤ f.skip) (_ht : 0 ≤ total) (hl : 0 < f.limit) :
    currentPage f = currentPageSpec f.skip f.limit ∧
    totalPages total f = totalPagesSpec total f.limit := by
  have h1 := fdiv_eq_ratFloor f.skip f.limit hl
  have h2 := neg_fdiv_neg_eq_ratCeil total f.limit hl
  exact ⟨h1, h2⟩

/-- C7 witness: `skip = 40, limit = 20, total = 45` gives
`currentPage = 2` and `totalPages = 3` on both sides of the formulas. -/
theorem derived_pagination_formulas_witness :
    0 ≤ ({ initialFilters with skip := 40 } : FilterState).skip ∧
    0 ≤ (45 : Int) ∧
    0 < ({ initialFilters with skip := 40 } : FilterState).limit ∧
    (currentPage { initialFilters with skip := 40 } =
       currentPageSpec ({ initialFilters with skip := 40 } : FilterState).skip
         ({ initialFilters with skip := 40 } : FilterState).limit ∧
     totalPages 45 { initialFilters with skip := 40 } =
       totalPagesSpec 45 ({ initialFilters with skip := 40 } : FilterState).limit) :=
  ⟨by decide, by decide, by decide,
   derived_pagination_formulas { initialFilters with skip := 40 } 45
     (by decide) (by decide) (by decide)⟩

/-! ### C4 -/

/-- C4: when the guard lets a request through and it fails, `documents` and
`total` are exactly what they were before the failure (so the initial empty
list and zero if nothing ever succeeded), and `error` becomes a non-empty
string — the server's structured detail when available (present and
non-empty), a generic fallback otherwise. -/
theorem failed_fetch_preserves_data (s : HookState) (d : Option String)
    (hguard : s.prevFiltersRef ≠ some (serializeFilters s.filters)) :
    (runEffect s (.failure d)).2 = true ∧
    (runEffect s (.failure d)).1.documents = s.documents ∧
    (runEffect s (.failure d)).1.total = s.total ∧
    (runEffect s (.failure d)).1.error = some (fetchErrorMessage d) ∧
    fetchErrorMessage d ≠ "" ∧
    (∀ m, d = some m → m ≠ "" → fetchErrorMessage d = m) ∧
    (d = none → fetchErrorMessage d = "Failed to fetch documents") ∧
    (d = some "" → fetchErrorMessage d = "Failed to fetch documents") ∧
    initialHookState.documents = [] ∧ initialHookState.total = 0 := by
  have h : runEffect s (.failure d) =
      ({ s with prevFiltersRef := some (serializeFilters s.filters),
                error := some (fetchErrorMessage d), loading := false }, true) := by
    unfold runEffect
    rw [if_neg hguard]
  refine ⟨by rw [h], by rw [h], by rw [h], by rw [h],
    fetchErrorMessage_ne_empty d, ?_, ?_, ?_, rfl, rfl⟩
  · intro m hm hne
    simp [fetchErrorMessage, hm, hne]
  · intro hd
    simp [fetchErrorMessage, hd]
  · intro hd
    simp [fetchErrorMessage, hd]

/-- C4 witness: a failed fetch with detail `"Boom"` at the mount state. -/
theorem failed_fetch_preserves_data_witness :
    initialHookState.prevFiltersRef ≠ some (serializeFilters initialHookState.filters) ∧
    ((runEffect initialHookState (.failure (some "Boom"))).2 = true ∧
     (runEffect initialHookState (.failure (some "Boom"))).1.documents =
       initialHookState.documents ∧
     (runEffect initialHookState (.failure (some "Boom"))).1.total =
       initialHookState.total ∧
     (runEffect initialHookState (.failure (some "Boom"))).1.error =
       some (fetchErrorMessage (some "Boom")) ∧
     fetchErrorMessage (some "Boom") ≠ "" ∧
     (∀ m, some "Boom" = some m → m ≠ "" → fetchErrorMessage (some "Boom") = m) ∧
     (some "Boom" = none → fetchErrorMessage (some "Boom") = "Failed to fetch documents") ∧
     (some "Boom" = some "" → fetchErrorMessage (some "Boom") = "Failed to fetch documents") ∧
     initialHookState.documents = [] ∧ initialHookState.total = 0) :=
  ⟨by decide, failed_fetch_preserves_data initialHookState (some "Boom") (by decide)⟩

/-! ### C5 -/

/-- C5: when the guard lets a request through and it succeeds, `documents`
is replaced wholesale by the response's items and `total` by its total —
no merging — and `error` is `null` afterwards. -/
theorem successful_fetch_replaces (s : HookState) (items : List Document) (t : Int)
    (hguard : s.prevFiltersRef ≠ some (serializeFilters s.filters)) :
    (runEffect s (.success items t)).1.documents = items ∧
    (runEffect s (.success items t)).1.total = t ∧
    (runEffect s (.success items t)).1.error = none ∧
    (runEffect s (.success items t)).2 = true := by
  have h : runEffect s (.success items t) =
      ({ s with prevFiltersRef := some (serializeFilters s.filters),
                documents := items, total := t, error := none, loading := false },
       true) := by
    unfold runEffect
    rw [if_neg hguard]
  exact ⟨by rw [h], by rw [h], by rw [h], by rw [h]⟩

/-- A five-item page as the backend would return for the last page of 45
documents with page size 20. -/
def docs5 : List Document :=
  [⟨41, "Apple Inc.", "0000320193", "10-K", "2024-11-01", "Annual report", "u41", 12⟩,
   ⟨42, "Apple Inc.", "0000320193", "10-Q", "2024-08-01", "Quarterly report", "u42", 7⟩,
   ⟨43, "Tesla, Inc.", "0001318605", "8-K", "2024-07-15", "Current report", "u43", 2⟩,
   ⟨44, "Tesla, Inc.", "0001318605", "10-K", "2024-01-29", "Annual report", "u44", 15⟩,
   ⟨45, "NVIDIA Corp", "0001045810", "DEF 14A", "2024-05-01", "Proxy statement", "u45", 4⟩]

/-- C5 witness: the mount-state fetch resolving with five items and total
45 stores exactly those values and a `null` error. -/
theorem successful_fetch_replaces_witness :
    initialHookState.prevFiltersRef ≠ some (serializeFilters initialHookState.filters) ∧
    ((runEffect initialHookState (.success docs5 45)).1.documents = docs5 ∧
     (runEffect initialHookState (.success docs5 45)).1.total = 45 ∧
     (runEffect initialHookState (.success docs5 45)).1.error = none ∧
     (runEffect initialHookState (.success docs5 45)).2 = true) :=
  ⟨by decide, successful_fetch_replaces initialHookState docs5 45 (by decide)⟩

/-! ### C1 -/

/-- The hook state right after the mount effect's first request resolved:
the ref now remembers the serialization of the default filters. -/
def mountedState : HookState :=
  (runEffect initialHookState (.success [] 0)).1

/-- C1: the deduplication half of the claim holds on the code — after
`updateFilters({search: "tesla"})` issues a request (first flag `true`),
the identical second call is suppressed (second flag `false`) — but the
refetch half fails: `refetch()` only copies the filter object
(`setFilters(prev => ({ ...prev }))`), the serialized form the guard
compares is unchanged and the ref is never invalidated, so the guard also
suppresses the request `refetch()` was meant to force (third flag `false`,
where the claim demands `true`). -/
theorem refetch_suppressed_by_guard :
    (stepHook mountedState (.updateFilters teslaPatch) (.success [] 0)).2 = true ∧
    (stepHook (stepHook mountedState (.updateFilters teslaPatch) (.success [] 0)).1
      (.updateFilters teslaPatch) (.success [] 0)).2 = false ∧
    (stepHook (stepHook (stepHook mountedState (.updateFilters teslaPatch)
        (.success [] 0)).1 (.updateFilters teslaPatch) (.success [] 0)).1
      .refetch (.success [] 0)).2 = false := by
  decide

/-! ### C8 -/

/-- C8: `goToPage(n)` sets `skip = n * limit` and changes nothing else — in
particular no bounds check against `total`; with `total = 45, limit = 20`
the derived page count is `3`, `goToPage(2)` lands on `skip = 40`, and the
response of five items with total `45` for that out-of-range-looking page
is stored verbatim with no bounds-correction of the state. -/
theorem goToPage_no_bounds_check :
    (∀ n f, goToPage n f = { f with skip := n * f.limit }) ∧
    totalPages 45 initialFilters = 3 ∧
    (goToPage 2 initialFilters).skip = 40 ∧
    (runEffect { initialHookState with filters := goToPage 2 initialFilters }
       (.success docs5 45)).2 = true ∧
    (runEffect { initialHookState with filters := goToPage 2 initialFilters }
       (.success docs5 45)).1.documents = docs5 ∧
    (runEffect { initialHookState with filters := goToPage 2 initialFilters }
       (.success docs5 45)).1.total = 45 ∧
    (runEffect { initialHookState with filters := goToPage 2 initialFilters }
       (.success docs5 45)).1.filters.skip = 40 := by
  refine ⟨fun n f => rfl, by decide, by decide, ?_, ?_, ?_, ?_⟩ <;> decide

/-! ### C9 -/

/-- C9: a non-empty burst of keystrokes in which every consecutive gap is
under the debounce delay issues exactly one request, carrying the final
text — every earlier timer is cancelled by the keystroke that follows it
within the delay. -/
theorem debounce_single_request (ks : List Keystroke) (hne : ks ≠ [])
    (hchain : List.Chain' (fun a b => b.time < a.time + 300) ks) :
    ∃ last, ks.getLast? = some last ∧ debounceRequests 300 ks = [last.text] := by
  induction ks with
  | nil => exact absurd rfl hne
  | cons k rest ih =>
    cases rest with
    | nil => exact ⟨k, rfl, rfl⟩
    | cons k2 rest2 =>
      obtain ⟨hlt, htail⟩ := List.chain'_cons.mp hchain
      obtain ⟨last, hl, hd⟩ := ih (by simp) htail
      refine ⟨last, ?_, ?_⟩
      · rw [List.getLast?_cons_cons]
        exact hl
      · simp only [debounceRequests, if_pos hlt]
        exact hd

/-- The keystroke burst that types `"Apple"` character by character at
50ms intervals. -/
def appleKeystrokes : List Keystroke :=
  [⟨0, "A"⟩, ⟨50, "Ap"⟩, ⟨100, "App"⟩, ⟨150, "Appl"⟩, ⟨200, "Apple"⟩]

/-- C9 witness: typing `"Apple"` character-by-character well inside the
300ms window issues exactly the one request `"Apple"`, not five. -/
theorem debounce_single_request_witness :
    appleKeystrokes ≠ [] ∧
    List.Chain' (fun a b => b.time < a.time + 300) appleKeystrokes ∧
    (∃ last, appleKeystrokes.getLast? = some last ∧
      debounceRequests 300 appleKeystrokes = [last.text]) ∧
    debounceRequests 300 appleKeystrokes = ["Apple"] :=
  ⟨by decide,
   by simp [appleKeystrokes, List.chain'_cons],
   debounce_single_request appleKeystrokes (by decide)
     (by simp [appleKeystrokes, List.chain'_cons]),
   by decide⟩

/-! ### C10 -/

/-- C10: submitting a blank (empty or whitespace-only) query issues no
request, sets the error `"Please enter a search query"` and leaves the
displayed result untouched; a non-blank query is posted trimmed, with each
empty optional filter sent as `null` and each non-empty one verbatim,
together with the selected limit. -/
theorem handleSearch_validation (s : SearchPanelState) :
    (jsTrim s.query = "" →
      (handleSearch s).2 = none ∧
      (handleSearch s).1.error = some "Please enter a search query" ∧
      (handleSearch s).1.result = s.result) ∧
    (jsTrim s.query ≠ "" →
      ∃ r, (handleSearch s).2 = some r ∧
        r.query = jsTrim s.query ∧
        (s.companyFilter = "" → r.company_filter = none) ∧
        (s.companyFilter ≠ "" → r.company_filter = some s.companyFilter) ∧
        (s.filingTypeFilter = "" → r.filing_type_filter = none) ∧
        (s.filingTypeFilter ≠ "" → r.filing_type_filter = some s.filingTypeFilter) ∧
        r.limit = s.limit) := by
  constructor
  · intro h
    unfold handleSearch
    rw [if_pos h]
    exact ⟨rfl, rfl, rfl⟩
  · intro h
    unfold handleSearch
    rw [if_neg h]
    refine ⟨_, rfl, rfl, ?_, ?_, ?_, ?_, rfl⟩
    · intro hc; simp only [if_pos hc]
    · intro hc; simp only [if_neg hc]
    · intro hc; simp only [if_pos hc]
    · intro hc; simp only [if_neg hc]

/-- The search panel just before submitting a padded non-blank query with
an empty company filter and a chosen filing type. -/
def sampleSearchState : SearchPanelState :=
  { query := "  Apple revenue  "
    companyFilter := ""
    filingTypeFilter := "10-K"
    limit := 5
    loading := false
    result := none
    error := none }

/-- The search panel just before submitting a whitespace-only query while
an earlier answer is still displayed. -/
def blankSearchState : SearchPanelState :=
  { query := "   "
    companyFilter := ""
    filingTypeFilter := ""
    limit := 5
    loading := false
    result := some { answer := "Earlier answer", chunks := [], total_chunks := 0 }
    error := none }

/-- C10 witness: the whitespace-only submission is rejected with the fixed
message and keeps the old result; the padded query goes out trimmed with
`company_filter` as `null` and `filing_type_filter` verbatim. -/
theorem handleSearch_validation_witness :
    (jsTrim blankSearchState.query = "" ∧
     (handleSearch blankSearchState).2 = none ∧
     (handleSearch blankSearchState).1.error = some "Please enter a search query" ∧
     (handleSearch blankSearchState).1.result = blankSearchState.result) ∧
    (jsTrim sampleSearchState.query ≠ "" ∧
     ∃ r, (handleSearch sampleSearchState).2 = some r ∧
       r.query = jsTrim sampleSearchState.query ∧
       (sampleSearchState.companyFilter = "" → r.company_filter = none) ∧
       (sampleSearchState.companyFilter ≠ "" →
         r.company_filter = some sampleSearchState.companyFilter) ∧
       (sampleSearchState.filingTypeFilter = "" → r.filing_type_filter = none) ∧
       (sampleSearchState.filingTypeFilter ≠ "" →
         r.filing_type_filter = some sampleSearchState.filingTypeFilter) ∧
       r.limit = sampleSearchState.limit) :=
  ⟨⟨by decide, (handleSearch_validation blankSearchState).1 (by decide)⟩,
   ⟨by decide, (handleSearch_validation sampleSearchState).2 (by decide)⟩⟩
